import Mathlib

/-!
Verification of the woo-mcp-server bridge correlation layer and session
transport registry, shallowly embedded from `src/server.js`.

The embedding covers:
* the `local_bridge` tool handler (correlation id generation via
  `Date.now()`, the per-call 15000 ms timer, the per-call `message`
  listener that filters by id, and `resolve(msg.result || msg.error)`);
* the `/bridge` WebSocket connection and close handlers that install and
  clear the module-level `localBridge` slot;
* the `/mcp` session map (`sessions`), including the POST handler's
  create-on-miss, the `onclose` callback, the re-insert after
  `handleRequest`, and the GET and DELETE handlers.

JavaScript objects are modelled as association lists of string keys to
`JsVal`; object identity of WebSocket handles is modelled with a numeric
handle id.
-/

/-- Model of a JavaScript/JSON value as it flows through the bridge.
Objects are flattened to string fields, which is all the wire payloads use. -/
inductive JsVal where
  | undefined
  | null
  | bool (b : Bool)
  | num (n : Int)
  | str (s : String)
  | obj (fields : List (String × String))
deriving DecidableEq, Repr

/-- JavaScript truthiness, as used by the `msg.result || msg.error` expression. -/
def JsVal.truthy : JsVal → Bool
  | .undefined => false
  | .null => false
  | .bool b => b
  | .num n => n != 0
  | .str s => s != ""
  | .obj _ => true

/-- The JavaScript `a || b` operator on values: `a` if truthy, else `b`. -/
def jsOr (a b : JsVal) : JsVal :=
  if a.truthy then a else b

/-- Property access `o?.k` on a JavaScript object: the field value, or undefined. -/
def jsGet (o : List (String × JsVal)) (k : String) : JsVal :=
  match o.find? (fun p => p.1 == k) with
  | some p => p.2
  | none => .undefined

/-- Strict equality `v === n` between a JSON value and a numeric correlation id. -/
def jsEqNum (v : JsVal) (n : Nat) : Bool :=
  match v with
  | .num m => m == (n : Int)
  | _ => false

/-- A WebSocket handle. `hid` models JavaScript object identity (two distinct
handles have distinct `hid`); `readyState` is the ws readyState, 1 = OPEN. -/
structure WsHandle where
  hid : Nat
  readyState : Nat
deriving DecidableEq, Repr

/-- The guard `!localBridge || localBridge.readyState !== 1` from the
`local_bridge` handler, given as the positive liveness test. -/
def bridgeLive : Option WsHandle → Bool
  | none => false
  | some ws => ws.readyState == 1

/-- Default bridge key, `process.env.BRIDGE_KEY || "woo-local-2026"`. -/
def BRIDGE_KEY : String := "woo-local-2026"

/-- The `wss.on("connection", ...)` handler's effect on the `localBridge`
slot: a mismatched `x-bridge-key` leaves the slot alone (the socket is closed
with code 4001); a matching key installs the new handle unconditionally. -/
def wssConnect (bridgeKey : String) (lb : Option WsHandle) (ws : WsHandle)
    (key : String) : Option WsHandle :=
  if key == bridgeKey then some ws else lb

/-- The `ws.on("close", ...)` handler: `if (localBridge === ws) localBridge = null`.
Identity `===` is modelled by comparing handle ids. -/
def wsClose (lb : Option WsHandle) (ws : WsHandle) : Option WsHandle :=
  match lb with
  | some cur => if cur.hid == ws.hid then none else lb
  | none => none

/-- Errors a pending bridged call can reject with. The only rejection the
per-call logic produces is the 15 s timeout. -/
inductive BridgeErr where
  | timeout
deriving DecidableEq, Repr

/-- Settlement state of the per-call Promise: a Promise settles at most once. -/
inductive Outcome where
  | unsettled
  | resolved (v : JsVal)
  | rejected (e : BridgeErr)
deriving DecidableEq, Repr

/-- First settlement wins; later resolve/reject calls on a settled Promise
are no-ops. -/
def settleOnce : Outcome → Outcome → Outcome
  | .unsettled, s => s
  | s, _ => s

/-- State of one in-flight `local_bridge` call: its correlation id
(`Date.now()` at issue), the timer duration passed to `setTimeout`, whether
the `message` listener is still installed, whether the timer is still armed,
and the Promise settlement state. -/
structure CallState where
  corrId : Nat
  timerMs : Nat
  listenerOn : Bool
  timerOn : Bool
  outcome : Outcome
deriving DecidableEq, Repr

/-- A parsed inbound wire message: the fields the handlers read.
Absent fields are `undefined`. -/
structure WireMsg where
  id : JsVal
  result : JsVal
  error : JsVal
deriving DecidableEq, Repr

/-- The `setTimeout` callback: `reject(new Error("타임아웃 (15초)"))`. It runs
only if the timer is still armed; it does not touch the message listener. -/
def fireTimeout (c : CallState) : CallState :=
  if c.timerOn then
    { c with timerOn := false, outcome := settleOnce c.outcome (.rejected .timeout) }
  else c

/-- The per-call `message` handler: if the listener is still installed and
`msg.id === id`, it removes itself, clears the timer, and calls
`resolve(msg.result || msg.error)`; otherwise the message is ignored. -/
def handleMessage (c : CallState) (m : WireMsg) : CallState :=
  if c.listenerOn && jsEqNum m.id c.corrId then
    { c with listenerOn := false, timerOn := false,
             outcome := settleOnce c.outcome (.resolved (jsOr m.result m.error)) }
  else c

/-- Delivery of one parsed message on the bridge socket: every installed
per-call listener sees it and applies its own id filter. -/
def dispatchMsg (reg : List CallState) (m : WireMsg) : List CallState :=
  reg.map (fun c => handleMessage c m)

/-- The failure `JSON.parse` raises on unparseable input inside the
`message` handlers. -/
inductive ParseErr where
  | jsonParse
deriving DecidableEq, Repr

/-- A raw frame arriving on the socket: either it parses to a `WireMsg`
or `JSON.parse` throws. -/
inductive RawMsg where
  | wellFormed (m : WireMsg)
  | malformed (s : String)
deriving DecidableEq, Repr

/-- Delivery of a raw frame: every message handler begins with
`JSON.parse(data.toString())`, so a malformed frame raises a parse error
(and no listener state changes); a well-formed frame is dispatched by id. -/
def dispatchRaw (reg : List CallState) (r : RawMsg) : Except ParseErr (List CallState) :=
  match r with
  | .wellFormed m => .ok (dispatchMsg reg m)
  | .malformed _ => .error .jsonParse

/-- The message the `local_bridge` tool returns (with isError) when the
bridge is not live. -/
def bridgeUnavailableMsg : String := "로컬 브릿지 미연결. PC에서 start-bridge.bat 실행하세요."

/-- The wire frame `JSON.stringify({ id, action, command, path: filePath, content })`
sent to the local agent. -/
structure SentFrame where
  id : Nat
  action : JsVal
  command : JsVal
  path : JsVal
  content : JsVal
deriving DecidableEq, Repr

/-- Result of entering the `local_bridge` handler: either the immediate
bridge-unavailable error, or a started call (Promise created, timer armed,
listener installed) together with the frame sent on the link. -/
inductive InvokeRes where
  | unavailable (msg : String)
  | started (c : CallState) (f : SentFrame)
deriving DecidableEq, Repr

/-- The synchronous part of the `local_bridge` tool handler, translated from
the source: guard on `!localBridge || localBridge.readyState !== 1`, then
`id = Date.now()` (the clock reading `now`), `setTimeout(..., 15000)`,
listener installation, and `send` of the serialized frame. -/
def local_bridge_invoke (lb : Option WsHandle) (args : List (String × JsVal))
    (now : Nat) : InvokeRes :=
  if bridgeLive lb then
    .started
      { corrId := now, timerMs := 15000, listenerOn := true, timerOn := true,
        outcome := .unsettled }
      { id := now, action := jsGet args "action", command := jsGet args "command",
        path := jsGet args "path", content := jsGet args "content" }
  else .unavailable bridgeUnavailableMsg

/-- Effect of one `local_bridge` invocation on the registry of in-flight
calls: the registered call states, the frames put on the wire, and the
immediate error if any. -/
structure InvokeOut where
  reg : List CallState
  sent : List SentFrame
  err : Option String
deriving DecidableEq, Repr

/-- Registry-level view of one invocation: an unavailable bridge changes
nothing and sends nothing; a live bridge appends one pending call and sends
one frame. -/
def invokeReg (lb : Option WsHandle) (args : List (String × JsVal)) (now : Nat)
    (reg : List CallState) : InvokeOut :=
  match local_bridge_invoke lb args now with
  | .unavailable msg => { reg := reg, sent := [], err := some msg }
  | .started c f => { reg := reg ++ [c], sent := [f], err := none }

/-- Extracts the timer duration registered by an invocation, if it started. -/
def startedTimer : InvokeRes → Option Nat
  | .started c _ => some c.timerMs
  | .unavailable _ => none

/-- Extracts the correlation id registered by an invocation, if it started. -/
def startedId : InvokeRes → Option Nat
  | .started c _ => some c.corrId
  | .unavailable _ => none

/-- Association lookup in the `sessions` Map: first entry with the key. -/
def lookupSess : List (String × Nat) → String → Option Nat
  | [], _ => none
  | (k, v) :: rest, sid => if k == sid then some v else lookupSess rest sid

/-- The `sessions.delete(sid)` operation: removes the key's entries. -/
def delSess : List (String × Nat) → String → List (String × Nat)
  | [], _ => []
  | (k, v) :: rest, sid =>
    if k == sid then delSess rest sid else (k, v) :: delSess rest sid

/-- The `transport.sessionId` field for a transport id: first assignment wins. -/
def sidOfT : List (Nat × String) → Nat → Option String
  | [], _ => none
  | (k, v) :: rest, t => if k == t then some v else sidOfT rest t

/-- Server-side session state: the `sessions` Map (session id to transport),
the `sessionId` each created transport was assigned, the set of transports
that have signaled closure, and the next fresh transport id. -/
structure SrvState where
  sessions : List (String × Nat)
  sidOf : List (Nat × String)
  closed : List Nat
  nextTid : Nat
deriving DecidableEq, Repr

/-- State at process start: no sessions, no transports. -/
def initState : SrvState := { sessions := [], sidOf := [], closed := [], nextTid := 0 }

/-- A transport signaling closure: it becomes closed, and its `onclose`
callback runs synchronously, deleting `transport.sessionId` from the
`sessions` Map when that id is set. -/
def closeTransport (st : SrvState) (tid : Nat) : SrvState :=
  match sidOfT st.sidOf tid with
  | some sid =>
    { st with closed := tid :: st.closed, sessions := delSess st.sessions sid }
  | none => { st with closed := tid :: st.closed }

/-- The tail of the POST handler:
`if (transport.sessionId && !sessions.has(transport.sessionId)) sessions.set(...)`. -/
def reinsert (st : SrvState) (tid : Nat) : SrvState :=
  match sidOfT st.sidOf tid with
  | some sid =>
    match lookupSess st.sessions sid with
    | some _ => st
    | none => { st with sessions := (sid, tid) :: st.sessions }
  | none => st

/-- Creation of a new transport by the POST handler: the fresh transport id
is recorded with the session id `handleRequest` assigns to it. -/
def freshTransport (st : SrvState) (newSid : String) : SrvState :=
  { st with sidOf := (st.nextTid, newSid) :: st.sidOf, nextTid := st.nextTid + 1 }

/-- The POST /mcp handler. `reqSid` is the (truthy) `mcp-session-id` header;
`newSid` is the id `sessionIdGenerator` would assign during `handleRequest`
when a new transport is created; `closesDuring` records whether the transport
signals closure during the awaited `handleRequest` (after its session id is
assigned, before the re-insert line runs). -/
def stepPost (st : SrvState) (reqSid : Option String) (newSid : String)
    (closesDuring : Bool) : SrvState :=
  match reqSid.bind (lookupSess st.sessions) with
  | some tid =>
    reinsert (if closesDuring then closeTransport st tid else st) tid
  | none =>
    reinsert
      (if closesDuring then closeTransport (freshTransport st newSid) st.nextTid
       else freshTransport st newSid)
      st.nextTid

/-- An asynchronous closure signal for an existing transport (a transport id
below `nextTid`); closure of a never-created transport cannot occur. -/
def stepClose (st : SrvState) (tid : Nat) : SrvState :=
  if tid < st.nextTid then closeTransport st tid else st

/-- The GET /mcp lookup: a missing or unknown session header yields a 400
"no session" response, modelled as `none`. -/
def stepGet (st : SrvState) (reqSid : Option String) : Option Nat :=
  reqSid.bind (lookupSess st.sessions)

/-- The DELETE /mcp handler: when the header names a known session, the
transport is closed (running `onclose`) and the entry deleted; in every case
the response is status 200 with body ok = true. -/
def stepDelete (st : SrvState) : Option String → SrvState × Nat × Bool
  | none => (st, 200, true)
  | some sid =>
    match lookupSess st.sessions sid with
    | none => (st, 200, true)
    | some tid =>
      ({ closeTransport st tid with
          sessions := delSess (closeTransport st tid).sessions sid }, 200, true)

/-- Externally observable events driving the session registry. -/
inductive SessEvent where
  | post (reqSid : Option String) (newSid : String) (closesDuring : Bool)
  | closeSignal (tid : Nat)
  | deleteReq (reqSid : Option String)
deriving DecidableEq, Repr

/-- One step of the session registry under an event. -/
def stepEvent (st : SrvState) : SessEvent → SrvState
  | .post r n c => stepPost st r n c
  | .closeSignal t => stepClose st t
  | .deleteReq r => (stepDelete st r).1

/-- Running a trace of events from a state. -/
def runEvents (st : SrvState) : List SessEvent → SrvState
  | [] => st
  | e :: es => runEvents (stepEvent st e) es

/-- Whether an event includes a closure signal delivered during a POST's
`handleRequest` window. -/
def closesDuringOf : SessEvent → Bool
  | .post _ _ c => c
  | _ => false

/-- Well-formedness of the session state: every registry entry points at a
transport whose assigned session id is that key, that has not signaled
closure, and that exists; closed transports and assignments stay below the
fresh-id counter. -/
def goodState (st : SrvState) : Prop :=
  (∀ p ∈ st.sessions, sidOfT st.sidOf p.2 = some p.1) ∧
  (∀ p ∈ st.sessions, p.2 ∉ st.closed) ∧
  (∀ p ∈ st.sessions, p.2 < st.nextTid) ∧
  (∀ t ∈ st.closed, t < st.nextTid) ∧
  (∀ q ∈ st.sidOf, q.1 < st.nextTid)

theorem handleMessage_noop {c : CallState} {m : WireMsg}
    (h : c.listenerOn = false ∨ jsEqNum m.id c.corrId = false) :
    handleMessage c m = c := by
  rcases h with h | h <;> simp [handleMessage, h]

theorem dispatchMsg_noop (reg : List CallState) (m : WireMsg)
    (h : ∀ c ∈ reg, c.listenerOn = false ∨ jsEqNum m.id c.corrId = false) :
    dispatchMsg reg m = reg := by
  induction reg with
  | nil => rfl
  | cons c rest ih =>
    simp only [dispatchMsg, List.map_cons] at ih ⊢
    rw [handleMessage_noop (h c (List.mem_cons_self c rest)),
      ih (fun x hx => h x (List.mem_cons_of_mem _ hx))]

/-- C1 counterexample: with a live bridge, two invocations issued at the same
clock millisecond (`Date.now()` returning 1000 both times) leave two
simultaneously live pending calls whose correlation ids coincide, so the ids
of concurrently live Pending Requests are not pairwise distinct. -/
theorem c1_same_millisecond_id_collision :
    ¬ (((invokeReg (some { hid := 0, readyState := 1 }) [] 1000
          (invokeReg (some { hid := 0, readyState := 1 }) [] 1000 []).reg).reg.map
            CallState.corrId).Nodup) ∧
    ((invokeReg (some { hid := 0, readyState := 1 }) [] 1000
        (invokeReg (some { hid := 0, readyState := 1 }) [] 1000 []).reg).reg.map
          CallState.listenerOn) = [true, true] := by
  constructor
  · decide
  · decide

/-- C1 amended: correlation ids are the `Date.now()` millisecond reading at
issuance, so two bridged invocations issued at distinct clock readings get
distinct ids; only issuance within the same millisecond collides. -/
theorem c1_distinct_clock_distinct_ids (lb1 lb2 : Option WsHandle)
    (a1 a2 : List (String × JsVal)) (n1 n2 : Nat)
    (h1 : bridgeLive lb1 = true) (h2 : bridgeLive lb2 = true) (hne : n1 ≠ n2) :
    startedId (local_bridge_invoke lb1 a1 n1) = some n1 ∧
    startedId (local_bridge_invoke lb2 a2 n2) = some n2 ∧
    startedId (local_bridge_invoke lb1 a1 n1) ≠
      startedId (local_bridge_invoke lb2 a2 n2) := by
  simp [local_bridge_invoke, startedId, h1, h2, hne]

/-- Witness for c1_distinct_clock_distinct_ids at clock readings 5 and 6. -/
theorem c1_distinct_clock_distinct_ids_witness :
    startedId (local_bridge_invoke (some { hid := 0, readyState := 1 }) [] 5) = some 5 ∧
    startedId (local_bridge_invoke (some { hid := 0, readyState := 1 }) [] 6) = some 6 ∧
    startedId (local_bridge_invoke (some { hid := 0, readyState := 1 }) [] 5) ≠
      startedId (local_bridge_invoke (some { hid := 0, readyState := 1 }) [] 6) :=
  c1_distinct_clock_distinct_ids _ _ [] [] 5 6 (by decide) (by decide) (by decide)

/-- C2 counterexample: firing the 15 s timeout on a live pending call rejects
the Promise with Timeout but does not remove the reply listener, contradicting
the claim that the pending slot and its reply listener are removed at the
moment the timeout fires. -/
theorem c2_timeout_keeps_listener :
    (fireTimeout ⟨7, 15000, true, true, Outcome.unsettled⟩).outcome =
      Outcome.rejected BridgeErr.timeout ∧
    ¬ ((fireTimeout ⟨7, 15000, true, true, Outcome.unsettled⟩).listenerOn = false) := by
  constructor
  · decide
  · decide

/-- C2 amended: a pending call that receives no matching reply within the
fixed 15000 ms window is rejected with Timeout and its timer is disarmed, but
its reply listener stays installed; a matching reply arriving after the
timeout then removes the listener and is otherwise discarded — the settled
outcome remains Timeout, so the late reply resolves nothing. -/
theorem c2_timeout_then_late_reply (c : CallState) (m : WireMsg)
    (hl : c.listenerOn = true) (ht : c.timerOn = true)
    (ho : c.outcome = Outcome.unsettled) (hm : jsEqNum m.id c.corrId = true) :
    (fireTimeout c).outcome = Outcome.rejected BridgeErr.timeout ∧
    (fireTimeout c).timerOn = false ∧
    (fireTimeout c).listenerOn = true ∧
    (handleMessage (fireTimeout c) m).outcome = Outcome.rejected BridgeErr.timeout ∧
    (handleMessage (fireTimeout c) m).listenerOn = false := by
  simp [fireTimeout, handleMessage, settleOnce, hl, ht, ho, hm]

/-- Witness for c2_timeout_then_late_reply on a concrete call and late reply. -/
theorem c2_timeout_then_late_reply_witness :
    (fireTimeout ⟨7, 15000, true, true, Outcome.unsettled⟩).outcome =
      Outcome.rejected BridgeErr.timeout ∧
    (fireTimeout ⟨7, 15000, true, true, Outcome.unsettled⟩).timerOn = false ∧
    (fireTimeout ⟨7, 15000, true, true, Outcome.unsettled⟩).listenerOn = true ∧
    (handleMessage (fireTimeout ⟨7, 15000, true, true, Outcome.unsettled⟩)
      ⟨JsVal.num 7, JsVal.str "late", JsVal.undefined⟩).outcome =
        Outcome.rejected BridgeErr.timeout ∧
    (handleMessage (fireTimeout ⟨7, 15000, true, true, Outcome.unsettled⟩)
      ⟨JsVal.num 7, JsVal.str "late", JsVal.undefined⟩).listenerOn = false :=
  c2_timeout_then_late_reply _ _ (by decide) (by decide) (by decide) (by decide)

/-- C3: a bridged invocation issued while no bridge handle is installed, or
while the installed handle is not in readyState OPEN, immediately returns the
bridge-unavailable error message, sends no frame, and leaves the registry of
pending calls unchanged (no listener, no timer). -/
theorem c3_bridge_unavailable (lb : Option WsHandle) (args : List (String × JsVal))
    (now : Nat) (reg : List CallState) (h : bridgeLive lb = false) :
    invokeReg lb args now reg =
      { reg := reg, sent := [], err := some bridgeUnavailableMsg } := by
  simp [invokeReg, local_bridge_invoke, h]

/-- Witness for c3_bridge_unavailable with no handle installed. -/
theorem c3_bridge_unavailable_witness :
    invokeReg none [] 42 [] = { reg := [], sent := [], err := some bridgeUnavailableMsg } :=
  c3_bridge_unavailable none [] 42 [] (by decide)

/-- C4: after attach(A); attach(B), the close handler of the stale handle A is
a no-op and B stays the authoritative link; the close handler clears the slot
only when the closing handle is identical (same object) to the current holder. -/
theorem c4_stale_detach_noop (lb : Option WsHandle) (A B : WsHandle)
    (hne : A.hid ≠ B.hid) :
    wsClose (wssConnect BRIDGE_KEY (wssConnect BRIDGE_KEY lb A BRIDGE_KEY) B BRIDGE_KEY)
      A = some B ∧
    wsClose (some B) A = some B ∧
    wsClose (some A) A = none := by
  have hBA : B.hid ≠ A.hid := Ne.symm hne
  simp [wsClose, wssConnect, hBA]

/-- Witness for c4_stale_detach_noop with concrete handles A and B. -/
theorem c4_stale_detach_noop_witness :
    wsClose (wssConnect BRIDGE_KEY (wssConnect BRIDGE_KEY none ⟨0, 1⟩ BRIDGE_KEY)
      ⟨1, 1⟩ BRIDGE_KEY) ⟨0, 1⟩ = some ⟨1, 1⟩ ∧
    wsClose (some ⟨1, 1⟩) ⟨0, 1⟩ = some ⟨1, 1⟩ ∧
    wsClose (some ⟨0, 1⟩) ⟨0, 1⟩ = none :=
  c4_stale_detach_noop none ⟨0, 1⟩ ⟨1, 1⟩ (by decide)

/-- C5: a first matching reply resolves the pending call with the reply
payload; a second reply for the same id is a no-op because the listener was
removed at the first settlement; and a reply whose listener is no longer
installed (no pending entry) changes nothing. -/
theorem c5_settlement_idempotent (c d : CallState) (m1 m2 m : WireMsg)
    (hl : c.listenerOn = true) (ho : c.outcome = Outcome.unsettled)
    (h1 : jsEqNum m1.id c.corrId = true) (h2 : jsEqNum m2.id c.corrId = true)
    (hd : d.listenerOn = false) :
    (handleMessage c m1).outcome = Outcome.resolved (jsOr m1.result m1.error) ∧
    handleMessage (handleMessage c m1) m2 = handleMessage c m1 ∧
    handleMessage d m = d := by
  refine ⟨?_, ?_, handleMessage_noop (Or.inl hd)⟩
  · simp [handleMessage, settleOnce, hl, ho, h1]
  · simp [handleMessage, settleOnce, hl, ho, h1, h2]

/-- Witness for c5_settlement_idempotent on a concrete call and two replies. -/
theorem c5_settlement_idempotent_witness :
    (handleMessage ⟨9, 15000, true, true, Outcome.unsettled⟩
      ⟨JsVal.num 9, JsVal.str "r", JsVal.undefined⟩).outcome =
        Outcome.resolved (jsOr (JsVal.str "r") JsVal.undefined) ∧
    handleMessage (handleMessage ⟨9, 15000, true, true, Outcome.unsettled⟩
      ⟨JsVal.num 9, JsVal.str "r", JsVal.undefined⟩)
      ⟨JsVal.num 9, JsVal.str "r2", JsVal.undefined⟩ =
      handleMessage ⟨9, 15000, true, true, Outcome.unsettled⟩
        ⟨JsVal.num 9, JsVal.str "r", JsVal.undefined⟩ ∧
    handleMessage ⟨11, 15000, false, false, Outcome.resolved JsVal.null⟩
      ⟨JsVal.num 11, JsVal.str "x", JsVal.undefined⟩ =
      ⟨11, 15000, false, false, Outcome.resolved JsVal.null⟩ :=
  c5_settlement_idempotent _ _ _ _ _ (by decide) (by decide) (by decide) (by decide)
    (by decide)

/-- C7 counterexample: a matching reply whose result field is the falsy value
false is not passed through verbatim — `resolve(msg.result || msg.error)`
discriminates by JavaScript truthiness, not by the presence of the result
field, so the call resolves with the (undefined) error field instead. -/
theorem c7_falsy_result_not_verbatim :
    ¬ ((handleMessage ⟨3, 15000, true, true, Outcome.unsettled⟩
        ⟨JsVal.num 3, JsVal.bool false, JsVal.undefined⟩).outcome =
          Outcome.resolved (JsVal.bool false)) ∧
    (handleMessage ⟨3, 15000, true, true, Outcome.unsettled⟩
        ⟨JsVal.num 3, JsVal.bool false, JsVal.undefined⟩).outcome =
      Outcome.resolved JsVal.undefined := by
  constructor
  · decide
  · decide

/-- C7 amended: a matching reply settles the pending call with
`msg.result || msg.error` — the result payload verbatim when it is truthy,
otherwise the error payload verbatim; the success/error discrimination is by
JavaScript truthiness of the result field, not by field presence. -/
theorem c7_truthiness_discriminator (c : CallState) (m : WireMsg)
    (hl : c.listenerOn = true) (ho : c.outcome = Outcome.unsettled)
    (hm : jsEqNum m.id c.corrId = true) :
    (handleMessage c m).outcome = Outcome.resolved (jsOr m.result m.error) ∧
    (m.result.truthy = true →
      (handleMessage c m).outcome = Outcome.resolved m.result) ∧
    (m.result.truthy = false →
      (handleMessage c m).outcome = Outcome.resolved m.error) := by
  refine ⟨?_, ?_, ?_⟩
  · simp [handleMessage, settleOnce, hl, ho, hm]
  · intro ht; simp [handleMessage, settleOnce, jsOr, hl, ho, hm, ht]
  · intro hf; simp [handleMessage, settleOnce, jsOr, hl, ho, hm, hf]

/-- Witness for c7_truthiness_discriminator on a concrete call and reply. -/
theorem c7_truthiness_discriminator_witness :
    (handleMessage ⟨4, 15000, true, true, Outcome.unsettled⟩
      ⟨JsVal.num 4, JsVal.obj [("stdout", "hi")], JsVal.undefined⟩).outcome =
        Outcome.resolved (jsOr (JsVal.obj [("stdout", "hi")]) JsVal.undefined) ∧
    ((JsVal.obj [("stdout", "hi")]).truthy = true →
      (handleMessage ⟨4, 15000, true, true, Outcome.unsettled⟩
        ⟨JsVal.num 4, JsVal.obj [("stdout", "hi")], JsVal.undefined⟩).outcome =
          Outcome.resolved (JsVal.obj [("stdout", "hi")])) ∧
    ((JsVal.obj [("stdout", "hi")]).truthy = false →
      (handleMessage ⟨4, 15000, true, true, Outcome.unsettled⟩
        ⟨JsVal.num 4, JsVal.obj [("stdout", "hi")], JsVal.undefined⟩).outcome =
          Outcome.resolved JsVal.undefined) :=
  c7_truthiness_discriminator _ _ (by decide) (by decide) (by decide)

/-- C8 counterexample: an invocation carrying a caller-supplied timeout field
of 1000 ms over a live bridge still arms its timer with the hard-coded
15000 ms — the handler reads no timeout argument, so the registered deadline
is never the caller-supplied one. -/
theorem c8_ignores_caller_timeout :
    ¬ (startedTimer (local_bridge_invoke (some ⟨0, 1⟩)
        [("timeout", JsVal.num 1000)] 42) = some 1000) ∧
    startedTimer (local_bridge_invoke (some ⟨0, 1⟩)
        [("timeout", JsVal.num 1000)] 42) = some 15000 := by
  constructor
  · decide
  · decide

/-- C8 amended: over a live bridge, invoke registers the fresh correlation id
with the fixed 15000 ms timeout regardless of the arguments, and sends exactly
one serialized frame carrying the id and the action, command, path and content
fields read from the arguments. -/
theorem c8_fixed_timeout_and_frame (lb : Option WsHandle)
    (args : List (String × JsVal)) (now : Nat) (reg : List CallState)
    (h : bridgeLive lb = true) :
    (invokeReg lb args now reg).reg =
      reg ++ [⟨now, 15000, true, true, Outcome.unsettled⟩] ∧
    (invokeReg lb args now reg).sent =
      [⟨now, jsGet args "action", jsGet args "command", jsGet args "path",
        jsGet args "content"⟩] ∧
    (invokeReg lb args now reg).err = none ∧
    startedTimer (local_bridge_invoke lb args now) = some 15000 := by
  simp [invokeReg, local_bridge_invoke, startedTimer, h]

/-- Witness for c8_fixed_timeout_and_frame on a concrete exec invocation. -/
theorem c8_fixed_timeout_and_frame_witness :
    (invokeReg (some ⟨0, 1⟩) [("action", JsVal.str "exec"),
        ("command", JsVal.str "echo hi")] 77 []).reg =
      [] ++ [⟨77, 15000, true, true, Outcome.unsettled⟩] ∧
    (invokeReg (some ⟨0, 1⟩) [("action", JsVal.str "exec"),
        ("command", JsVal.str "echo hi")] 77 []).sent =
      [⟨77, jsGet [("action", JsVal.str "exec"), ("command", JsVal.str "echo hi")] "action",
        jsGet [("action", JsVal.str "exec"), ("command", JsVal.str "echo hi")] "command",
        jsGet [("action", JsVal.str "exec"), ("command", JsVal.str "echo hi")] "path",
        jsGet [("action", JsVal.str "exec"), ("command", JsVal.str "echo hi")] "content"⟩] ∧
    (invokeReg (some ⟨0, 1⟩) [("action", JsVal.str "exec"),
        ("command", JsVal.str "echo hi")] 77 []).err = none ∧
    startedTimer (local_bridge_invoke (some ⟨0, 1⟩) [("action", JsVal.str "exec"),
        ("command", JsVal.str "echo hi")] 77) = some 15000 :=
  c8_fixed_timeout_and_frame _ _ 77 [] (by decide)

/-- C9 counterexample: a malformed (unparseable) frame on the bridge socket is
not dropped silently — every message handler begins with `JSON.parse`, which
raises, so delivery yields a parse error rather than a successful no-op. -/
theorem c9_malformed_frame_raises :
    dispatchRaw [⟨3, 15000, true, true, Outcome.unsettled⟩] (RawMsg.malformed "oops") =
      Except.error ParseErr.jsonParse ∧
    (dispatchRaw [⟨3, 15000, true, true, Outcome.unsettled⟩]
      (RawMsg.malformed "oops")).toOption = none := by
  constructor
  · rfl
  · rfl

/-- C9 amended: a well-formed inbound message whose id matches no live pending
entry is dropped silently — delivery succeeds and every in-flight pending
call's state is left exactly unchanged; only malformed frames raise (a JSON
parse error). -/
theorem c9_unknown_id_dropped (reg : List CallState) (m : WireMsg)
    (h : ∀ c ∈ reg, c.listenerOn = false ∨ jsEqNum m.id c.corrId = false) :
    dispatchRaw reg (RawMsg.wellFormed m) = Except.ok reg := by
  simp [dispatchRaw, dispatchMsg_noop reg m h]

/-- Witness for c9_unknown_id_dropped: a foreign id 99 against a live pending
call with id 3 and an already-settled call with id 5. -/
theorem c9_unknown_id_dropped_witness :
    dispatchRaw [⟨3, 15000, true, true, Outcome.unsettled⟩,
        ⟨5, 15000, false, false, Outcome.resolved JsVal.null⟩]
      (RawMsg.wellFormed ⟨JsVal.num 99, JsVal.str "r", JsVal.undefined⟩) =
      Except.ok [⟨3, 15000, true, true, Outcome.unsettled⟩,
        ⟨5, 15000, false, false, Outcome.resolved JsVal.null⟩] :=
  c9_unknown_id_dropped _ _ (by decide)

theorem lookupSess_mem {s : List (String × Nat)} {sid : String} {t : Nat}
    (h : lookupSess s sid = some t) : (sid, t) ∈ s := by
  induction s with
  | nil => simp [lookupSess] at h
  | cons p rest ih =>
    obtain ⟨k, v⟩ := p
    rw [lookupSess] at h
    by_cases hk : (k == sid) = true
    · rw [if_pos hk] at h
      obtain rfl : k = sid := beq_iff_eq.mp hk
      obtain rfl : v = t := Option.some.inj h
      exact List.mem_cons_self _ _
    · rw [if_neg hk] at h
      exact List.mem_cons_of_mem _ (ih h)

theorem lookup_delSess_self (s : List (String × Nat)) (sid : String) :
    lookupSess (delSess s sid) sid = none := by
  induction s with
  | nil => rfl
  | cons p rest ih =>
    obtain ⟨k, v⟩ := p
    rw [delSess]
    by_cases hk : (k == sid) = true
    · rw [if_pos hk]; exact ih
    · rw [if_neg hk, lookupSess, if_neg hk]; exact ih

theorem mem_delSess {s : List (String × Nat)} {sid : String} {p : String × Nat}
    (h : p ∈ delSess s sid) : p ∈ s ∧ p.1 ≠ sid := by
  induction s with
  | nil => simp [delSess] at h
  | cons q rest ih =>
    obtain ⟨k, v⟩ := q
    rw [delSess] at h
    by_cases hk : (k == sid) = true
    · rw [if_pos hk] at h
      obtain ⟨h1, h2⟩ := ih h
      exact ⟨List.mem_cons_of_mem _ h1, h2⟩
    · rw [if_neg hk] at h
      rcases List.mem_cons.mp h with rfl | hmem
      · exact ⟨List.mem_cons_self _ _, fun heq => hk (beq_iff_eq.mpr heq)⟩
      · obtain ⟨h1, h2⟩ := ih hmem
        exact ⟨List.mem_cons_of_mem _ h1, h2⟩

theorem sidOfT_cons_ne {q tid : Nat} (l : List (Nat × String)) (nsid : String)
    (h : q ≠ tid) : sidOfT ((tid, nsid) :: l) q = sidOfT l q := by
  rw [sidOfT, if_neg]
  intro hc
  exact h (beq_iff_eq.mp hc).symm

theorem sidOfT_cons_self (l : List (Nat × String)) (tid : Nat) (nsid : String) :
    sidOfT ((tid, nsid) :: l) tid = some nsid := by
  rw [sidOfT, if_pos (beq_self_eq_true tid)]

theorem reinsert_of_noSid {st : SrvState} {tid : Nat}
    (h : sidOfT st.sidOf tid = none) : reinsert st tid = st := by
  unfold reinsert
  rw [h]

theorem reinsert_of_present {st : SrvState} {tid t0 : Nat} {sid : String}
    (h1 : sidOfT st.sidOf tid = some sid)
    (h2 : lookupSess st.sessions sid = some t0) : reinsert st tid = st := by
  unfold reinsert
  rw [h1]
  simp only [h2]

theorem reinsert_of_absent {st : SrvState} {tid : Nat} {sid : String}
    (h1 : sidOfT st.sidOf tid = some sid)
    (h2 : lookupSess st.sessions sid = none) :
    reinsert st tid = { st with sessions := (sid, tid) :: st.sessions } := by
  unfold reinsert
  rw [h1]
  simp only [h2]

theorem closeTransport_of_noSid {st : SrvState} {tid : Nat}
    (h : sidOfT st.sidOf tid = none) :
    closeTransport st tid = { st with closed := tid :: st.closed } := by
  unfold closeTransport
  rw [h]

theorem closeTransport_of_sid {st : SrvState} {tid : Nat} {sid : String}
    (h : sidOfT st.sidOf tid = some sid) :
    closeTransport st tid =
      { st with closed := tid :: st.closed,
                sessions := delSess st.sessions sid } := by
  unfold closeTransport
  rw [h]

theorem reinsert_good {st : SrvState} {tid : Nat} (hg : goodState st)
    (hclosed : tid ∉ st.closed) (hlt : tid < st.nextTid) :
    goodState (reinsert st tid) := by
  obtain ⟨w1, w2, w3, w4, w5⟩ := hg
  cases hs : sidOfT st.sidOf tid with
  | none => rw [reinsert_of_noSid hs]; exact ⟨w1, w2, w3, w4, w5⟩
  | some sid =>
    cases hl : lookupSess st.sessions sid with
    | some t0 => rw [reinsert_of_present hs hl]; exact ⟨w1, w2, w3, w4, w5⟩
    | none =>
      rw [reinsert_of_absent hs hl]
      refine ⟨?_, ?_, ?_, w4, w5⟩
      · intro p hp
        rcases List.mem_cons.mp hp with rfl | hmem
        · exact hs
        · exact w1 p hmem
      · intro p hp
        rcases List.mem_cons.mp hp with rfl | hmem
        · exact hclosed
        · exact w2 p hmem
      · intro p hp
        rcases List.mem_cons.mp hp with rfl | hmem
        · exact hlt
        · exact w3 p hmem

theorem closeTransport_good {st : SrvState} {tid : Nat} (hg : goodState st)
    (hlt : tid < st.nextTid) : goodState (closeTransport st tid) := by
  obtain ⟨w1, w2, w3, w4, w5⟩ := hg
  cases hs : sidOfT st.sidOf tid with
  | none =>
    rw [closeTransport_of_noSid hs]
    refine ⟨w1, ?_, w3, ?_, w5⟩
    · intro p hp hmem
      rcases List.mem_cons.mp hmem with heq | hmem2
      · rw [← heq] at hs
        rw [w1 p hp] at hs
        exact Option.noConfusion hs
      · exact w2 p hp hmem2
    · intro t ht
      rcases List.mem_cons.mp ht with rfl | ht2
      · exact hlt
      · exact w4 t ht2
  | some sid =>
    rw [closeTransport_of_sid hs]
    refine ⟨?_, ?_, ?_, ?_, w5⟩
    · intro p hp
      exact w1 p (mem_delSess hp).1
    · intro p hp hmem
      obtain ⟨hpm, hpne⟩ := mem_delSess hp
      rcases List.mem_cons.mp hmem with heq | hmem2
      · rw [← heq] at hs
        rw [w1 p hpm] at hs
        exact hpne (Option.some.inj hs)
      · exact w2 p hpm hmem2
    · intro p hp
      exact w3 p (mem_delSess hp).1
    · intro t ht
      rcases List.mem_cons.mp ht with rfl | ht2
      · exact hlt
      · exact w4 t ht2

theorem freshTransport_good {st : SrvState} (hg : goodState st) (newSid : String) :
    goodState (freshTransport st newSid) := by
  obtain ⟨w1, w2, w3, w4, w5⟩ := hg
  refine ⟨?_, w2, ?_, ?_, ?_⟩
  · intro p hp
    have hne : p.2 ≠ st.nextTid := Nat.ne_of_lt (w3 p hp)
    show sidOfT ((st.nextTid, newSid) :: st.sidOf) p.2 = some p.1
    rw [sidOfT_cons_ne _ _ hne]
    exact w1 p hp
  · intro p hp
    exact Nat.lt_succ_of_lt (w3 p hp)
  · intro t ht
    exact Nat.lt_succ_of_lt (w4 t ht)
  · intro q hq
    rcases List.mem_cons.mp hq with rfl | hq2
    · exact Nat.lt_succ_self _
    · exact Nat.lt_succ_of_lt (w5 q hq2)

theorem nextTid_not_closed {st : SrvState} (hg : goodState st) :
    st.nextTid ∉ st.closed := by
  intro hmem
  exact Nat.lt_irrefl _ (hg.2.2.2.1 _ hmem)

theorem stepPost_found {st : SrvState} {reqSid : Option String} {newSid : String}
    {tid : Nat} (h : reqSid.bind (lookupSess st.sessions) = some tid) :
    stepPost st reqSid newSid false = reinsert st tid := by
  unfold stepPost
  rw [h]
  rfl

theorem stepPost_new {st : SrvState} {reqSid : Option String} {newSid : String}
    (h : reqSid.bind (lookupSess st.sessions) = none) :
    stepPost st reqSid newSid false =
      reinsert (freshTransport st newSid) st.nextTid := by
  unfold stepPost
  rw [h]
  rfl

theorem stepPost_good {st : SrvState} (hg : goodState st) (reqSid : Option String)
    (newSid : String) : goodState (stepPost st reqSid newSid false) := by
  cases hb : reqSid.bind (lookupSess st.sessions) with
  | some tid =>
    rw [stepPost_found hb]
    obtain ⟨sid0, hr, hl⟩ := Option.bind_eq_some.mp hb
    have hmem := lookupSess_mem hl
    exact reinsert_good hg (hg.2.1 _ hmem) (hg.2.2.1 _ hmem)
  | none =>
    rw [stepPost_new hb]
    have hg1 := freshTransport_good hg newSid
    exact reinsert_good hg1 (nextTid_not_closed hg) (Nat.lt_succ_self _)

theorem stepClose_good {st : SrvState} (hg : goodState st) (tid : Nat) :
    goodState (stepClose st tid) := by
  unfold stepClose
  by_cases h : tid < st.nextTid
  · rw [if_pos h]; exact closeTransport_good hg h
  · rw [if_neg h]; exact hg

theorem shrinkSessions_good {st : SrvState} (hg : goodState st) (sid : String) :
    goodState { st with sessions := delSess st.sessions sid } := by
  obtain ⟨w1, w2, w3, w4, w5⟩ := hg
  exact ⟨fun p hp => w1 p (mem_delSess hp).1, fun p hp => w2 p (mem_delSess hp).1,
    fun p hp => w3 p (mem_delSess hp).1, w4, w5⟩

theorem stepDelete_unknown {st : SrvState} {sid : String}
    (h : lookupSess st.sessions sid = none) :
    stepDelete st (some sid) = (st, 200, true) := by
  show (match lookupSess st.sessions sid with
    | none => (st, 200, true)
    | some tid =>
      ({ closeTransport st tid with
          sessions := delSess (closeTransport st tid).sessions sid }, 200, true)) =
    (st, 200, true)
  rw [h]

theorem stepDelete_found {st : SrvState} {sid : String} {tid : Nat}
    (h : lookupSess st.sessions sid = some tid) :
    stepDelete st (some sid) =
      ({ closeTransport st tid with
          sessions := delSess (closeTransport st tid).sessions sid }, 200, true) := by
  show (match lookupSess st.sessions sid with
    | none => (st, 200, true)
    | some tid =>
      ({ closeTransport st tid with
          sessions := delSess (closeTransport st tid).sessions sid }, 200, true)) =
    ({ closeTransport st tid with
        sessions := delSess (closeTransport st tid).sessions sid }, 200, true)
  rw [h]

theorem stepDelete_good {st : SrvState} (hg : goodState st) (reqSid : Option String) :
    goodState (stepDelete st reqSid).1 := by
  cases reqSid with
  | none => exact hg
  | some sid =>
    cases hl : lookupSess st.sessions sid with
    | none => rw [stepDelete_unknown hl]; exact hg
    | some tid =>
      rw [stepDelete_found hl]
      have hmem := lookupSess_mem hl
      have hlt := hg.2.2.1 _ hmem
      exact shrinkSessions_good (closeTransport_good hg hlt) sid

theorem stepEvent_good {st : SrvState} (hg : goodState st) {e : SessEvent}
    (he : closesDuringOf e = false) : goodState (stepEvent st e) := by
  cases e with
  | post r n c =>
    have hc : c = false := he
    subst hc
    exact stepPost_good hg r n
  | closeSignal t => exact stepClose_good hg t
  | deleteReq r => exact stepDelete_good hg r

theorem goodState_init : goodState initState := by
  refine ⟨?_, ?_, ?_, ?_, ?_⟩ <;> intro x hx <;> simp [initState] at hx

theorem runEvents_good : ∀ (es : List SessEvent) (st : SrvState), goodState st →
    (∀ e ∈ es, closesDuringOf e = false) → goodState (runEvents st es)
  | [], _, hg, _ => hg
  | e :: es, _st, hg, h =>
    runEvents_good es _ (stepEvent_good hg (h e (List.mem_cons_self _ _)))
      (fun x hx => h x (List.mem_cons_of_mem _ hx))

theorem close_removes {st : SrvState} (hg : goodState st) {sid : String} {tid : Nat}
    (h : lookupSess st.sessions sid = some tid) :
    lookupSess (stepClose st tid).sessions sid = none := by
  have hmem := lookupSess_mem h
  have hlt := hg.2.2.1 _ hmem
  have hsid : sidOfT st.sidOf tid = some sid := hg.1 _ hmem
  unfold stepClose
  rw [if_pos hlt, closeTransport_of_sid hsid]
  exact lookup_delSess_self _ _

/-- C6 counterexample: if the transport created by a POST signals closure
during that POST's `handleRequest` (after its session id is assigned), the
re-insert line after `handleRequest` puts the already-closed transport into
the registry: session id S is present, maps to transport 0, yet transport 0
has signaled closure, and a subsequent GET lookup still finds it instead of
failing with SessionNotFound. -/
theorem c6_close_during_post_reinserts_closed :
    lookupSess (stepEvent initState (SessEvent.post none "S" true)).sessions "S" =
      some 0 ∧
    0 ∈ (stepEvent initState (SessEvent.post none "S" true)).closed ∧
    stepGet (stepEvent initState (SessEvent.post none "S" true)) (some "S") = some 0 := by
  refine ⟨?_, ?_, ?_⟩
  · decide
  · decide
  · decide

/-- C6 amended: on every trace in which no transport signals closure during
the `handleRequest` window of a POST (before the re-insert line), a session id
present in the registry always maps to a transport that has not signaled
closure; and from any well-formed state, a closure signal for a registered
transport removes its entry synchronously, so an immediately subsequent
lookup of that session id fails as SessionNotFound. -/
theorem c6_registry_closure_invariant (es : List SessEvent)
    (h : ∀ e ∈ es, closesDuringOf e = false) :
    (∀ p ∈ (runEvents initState es).sessions, p.2 ∉ (runEvents initState es).closed) ∧
    (∀ sid tid, lookupSess (runEvents initState es).sessions sid = some tid →
       lookupSess (stepClose (runEvents initState es) tid).sessions sid = none) := by
  have hg := runEvents_good es initState goodState_init h
  exact ⟨hg.2.1, fun sid tid hl => close_removes hg hl⟩

/-- Witness for c6_registry_closure_invariant on a trace that creates two
sessions, closes the first, and deletes via the HTTP handler. -/
theorem c6_registry_closure_invariant_witness :
    (∀ p ∈ (runEvents initState [SessEvent.post none "A" false,
        SessEvent.closeSignal 0, SessEvent.post none "B" false,
        SessEvent.deleteReq (some "A")]).sessions,
      p.2 ∉ (runEvents initState [SessEvent.post none "A" false,
        SessEvent.closeSignal 0, SessEvent.post none "B" false,
        SessEvent.deleteReq (some "A")]).closed) ∧
    (∀ sid tid, lookupSess (runEvents initState [SessEvent.post none "A" false,
        SessEvent.closeSignal 0, SessEvent.post none "B" false,
        SessEvent.deleteReq (some "A")]).sessions sid = some tid →
      lookupSess (stepClose (runEvents initState [SessEvent.post none "A" false,
        SessEvent.closeSignal 0, SessEvent.post none "B" false,
        SessEvent.deleteReq (some "A")]) tid).sessions sid = none) :=
  c6_registry_closure_invariant
    [SessEvent.post none "A" false, SessEvent.closeSignal 0,
     SessEvent.post none "B" false, SessEvent.deleteReq (some "A")]
    (by decide)

/-- C10: every DELETE /mcp request is answered with HTTP 200 and body ok,
whether or not the supplied session id (or any session header at all) is
known; when the id is absent or unknown the session registry is left exactly
unchanged. -/
theorem c10_delete_always_ok (st : SrvState) (reqSid : Option String) :
    (stepDelete st reqSid).2 = (200, true) ∧
    (reqSid.bind (lookupSess st.sessions) = none → (stepDelete st reqSid).1 = st) := by
  cases reqSid with
  | none => exact ⟨rfl, fun _ => rfl⟩
  | some sid =>
    cases hl : lookupSess st.sessions sid with
    | none =>
      rw [stepDelete_unknown hl]
      exact ⟨rfl, fun _ => rfl⟩
    | some tid =>
      rw [stepDelete_found hl]
      refine ⟨rfl, fun hc => ?_⟩
      simp [hl] at hc

/-- Witness for c10_delete_always_ok: deleting an unknown session id Z from
the empty registry responds 200 ok and changes nothing. -/
theorem c10_delete_always_ok_witness :
    (stepDelete initState (some "Z")).2 = (200, true) ∧
    ((some "Z").bind (lookupSess initState.sessions) = none →
      (stepDelete initState (some "Z")).1 = initState) :=
  c10_delete_always_ok initState (some "Z")
